import Mathlib

/-!
Verification development for the SvmNest hypervisor core (SimpleSvm.cpp,
BaseUtil.cpp, SvmUtil.cpp).  The definitions below are a shallow embedding
of the C code: pure computations become Lean functions, the per-machine
virtualization lifecycle becomes explicit state passing, machine integers
are `Nat`/`Int` with explicit wrap-around where it matters, and fallible
paths return explicit status codes.
-/

namespace SvmNest

/-! ## NTSTATUS codes

`NTSTATUS` is a signed 32-bit integer; `NT_SUCCESS` means the value is
nonnegative.  The concrete codes used by the driver, written as the signed
interpretation of their 32-bit patterns. -/

abbrev NTSTATUS := Int

def STATUS_SUCCESS : NTSTATUS := 0

/-- 0xC00000EF as a signed 32-bit value. -/
def STATUS_INVALID_PARAMETER_1 : NTSTATUS := -1073741585

/-- 0xC000009A as a signed 32-bit value. -/
def STATUS_INSUFFICIENT_RESOURCES : NTSTATUS := -1073741670

/-- 0xC035001E as a signed 32-bit value. -/
def STATUS_HV_FEATURE_UNAVAILABLE : NTSTATUS := -1070596066

/-- The NT_SUCCESS macro: an NTSTATUS is a success value iff nonnegative. -/
def NtSuccess (status : NTSTATUS) : Bool := decide (0 ≤ status)

/-! ## Machine state for the virtualization lifecycle

State observable across `SvVirtualizeProcessor` / `SvDevirtualizeProcessor`
calls: the number of outstanding page-aligned pool allocations
(`SvAllocatePageAlingedPhysicalMemory` minus the matching frees), the number
of outstanding contiguous allocations (`SvAllocateContiguousMemory`), which
logical processors are currently virtualized, and whether the shared data /
MSR permissions map are currently allocated.  `everVirtualized` is ghost
state recording whether a processor was ever virtualized (never cleared),
used to state the rollback property. -/

@[ext]
structure MachineState where
  pageAllocCount : Nat
  contigAllocCount : Nat
  virtualized : Nat → Bool
  everVirtualized : Nat → Bool
  sharedAllocated : Bool
  msrpmAllocated : Bool

/-- Environment for the lifecycle: which allocations succeed on which
processor, whether the capability probe (`SvIsSvmSupported`) passes, and
how many logical processors `KeQueryActiveProcessorCountEx` reports. -/
structure VirtEnv where
  svmSupported : Bool
  sharedAllocOk : Bool
  msrpmAllocOk : Bool
  vpAllocOk : Nat → Bool
  nestAllocOk : Nat → Bool
  numProcessors : Nat

/-- `SvVirtualizeProcessor` (SimpleSvm.cpp).  Running on processor `cpu`:
checks the `Context` argument, allocates the per-processor data block
(`vpData`) and the nest-data block (`pProcessNestData`), captures the
context, and — only if `SvIsSimpleSvmHypervisorInstalled()` is `FALSE`,
i.e. the processor is not already virtualized — enables SVM and launches
the guest, resuming at the captured context where the installed check now
succeeds.  On the `Exit` label the per-processor block is freed only when
the status is a failure.  Returns the status and the new machine state. -/
def SvVirtualizeProcessor (env : VirtEnv) (cpu : Nat) (contextPresent : Bool)
    (s : MachineState) : NTSTATUS × MachineState :=
  if !contextPresent then
    (STATUS_INVALID_PARAMETER_1, s)
  else if !env.vpAllocOk cpu then
    -- vpData allocation failed: status set, Exit label frees nothing.
    (STATUS_INSUFFICIENT_RESOURCES, s)
  else
    -- vpData allocated (one page-aligned allocation).
    let s1 := { s with pageAllocCount := s.pageAllocCount + 1 }
    if !env.nestAllocOk cpu then
      -- pProcessNestData allocation failed: Exit label frees vpData.
      (STATUS_INSUFFICIENT_RESOURCES,
       { s1 with pageAllocCount := s1.pageAllocCount - 1 })
    else
      -- pProcessNestData allocated (second page-aligned allocation).
      let s2 := { s1 with pageAllocCount := s1.pageAllocCount + 1 }
      if s.virtualized cpu then
        -- SvIsSimpleSvmHypervisorInstalled() == TRUE: return success.
        -- The Exit label does not free on success.
        (STATUS_SUCCESS, s2)
      else
        -- Prepare the VMCB and launch; execution resumes at the captured
        -- context with the processor virtualized, and the installed check
        -- now succeeds, returning success.
        (STATUS_SUCCESS,
         { s2 with
            virtualized := fun p => if p = cpu then true else s2.virtualized p,
            everVirtualized :=
              fun p => if p = cpu then true else s2.everVirtualized p })

/-- The loop body of `SvExecuteOnEachProcessor`, starting at index `i`:
runs the callback on each processor index in order, stopping at the first
callback result that is not a success.  Returns the final status, the loop
counter at exit (reported through `NumOfProcessorCompleted`), and the final
state threaded through the callback. -/
def ExecLoop {σ : Type} (callback : Nat → σ → NTSTATUS × σ) (n i : Nat)
    (s : σ) : NTSTATUS × Nat × σ :=
  if h : i < n then
    let r := callback i s
    if NtSuccess r.1 then
      ExecLoop callback n (i + 1) r.2
    else
      (r.1, i, r.2)
  else
    (STATUS_SUCCESS, i, s)
termination_by n - i

/-- `SvExecuteOnEachProcessor` (SimpleSvm.cpp): executes `callback` on each
of the `n` processors one by one, in index order, stopping at the first
failure.  The second component of the result is the number of processors
that successfully executed the callback (the loop counter at exit). -/
def SvExecuteOnEachProcessor {σ : Type} (callback : Nat → σ → NTSTATUS × σ)
    (n : Nat) (s : σ) : NTSTATUS × Nat × σ :=
  ExecLoop callback n 0 s

/-- `SvDevirtualizeProcessor` (SimpleSvm.cpp).  Issues the unload CPUID; if
the hypervisor is installed on this processor it answers with the marker
and the per-processor data address.  The handler then frees the nest-data
block and the per-processor block (two page-aligned frees) and stores the
shared-data pointer through the `Context` out-pointer (modelled by the
`Bool` component).  If the hypervisor is not installed, nothing happens.
Always returns `STATUS_SUCCESS`. -/
def SvDevirtualizeProcessor (cpu : Nat) (s : MachineState)
    (sharedCaptured : Bool) : NTSTATUS × MachineState × Bool :=
  if s.virtualized cpu then
    (STATUS_SUCCESS,
     { s with
        virtualized := fun p => if p = cpu then false else s.virtualized p,
        pageAllocCount := s.pageAllocCount - 2 },
     true)
  else
    (STATUS_SUCCESS, s, sharedCaptured)

/-- The callback passed by `SvDevirtualizeAllProcessors` to
`SvExecuteOnEachProcessor`: `SvDevirtualizeProcessor` with the machine
state and the shared-data out-pointer threaded through. -/
def DevirtCallback (cpu : Nat) (st : MachineState × Bool) :
    NTSTATUS × MachineState × Bool :=
  let r2 := SvDevirtualizeProcessor cpu st.1 st.2
  (r2.1, (r2.2.1, r2.2.2))

/-- `SvDevirtualizeAllProcessors` (SimpleSvm.cpp): runs
`SvDevirtualizeProcessor` on every processor with a shared-data out-pointer
as context, then frees the MSR permissions map (contiguous) and the shared
data (page-aligned) when the out-pointer was filled in. -/
def SvDevirtualizeAllProcessors (n : Nat) (s : MachineState) : MachineState :=
  let r := SvExecuteOnEachProcessor DevirtCallback n (s, false)
  let sFinal := r.2.2.1
  let captured := r.2.2.2
  if captured then
    { sFinal with
       contigAllocCount := sFinal.contigAllocCount - 1,
       msrpmAllocated := false,
       pageAllocCount := sFinal.pageAllocCount - 1,
       sharedAllocated := false }
  else
    sFinal

/-- `SvVirtualizeAllProcessors` (SimpleSvm.cpp): checks the capability
probe, allocates the shared data block and the contiguous MSR permissions
map, builds the nested page tables and the MSRPM, then virtualizes each
processor via `SvExecuteOnEachProcessor`.  On failure: if one or more
processors were already virtualized (`numOfProcessorsCompleted != 0`),
rolls everything back via `SvDevirtualizeAllProcessors`; otherwise frees
the shared allocations directly. -/
def SvVirtualizeAllProcessors (env : VirtEnv) (s : MachineState) :
    NTSTATUS × MachineState :=
  if !env.svmSupported then
    (STATUS_HV_FEATURE_UNAVAILABLE, s)
  else if !env.sharedAllocOk then
    (STATUS_INSUFFICIENT_RESOURCES, s)
  else
    let s1 := { s with
                 pageAllocCount := s.pageAllocCount + 1,
                 sharedAllocated := true }
    if !env.msrpmAllocOk then
      -- MSRPM allocation failed; completed count is 0, so the Exit label
      -- frees the shared data (the MSRPM pointer is null).
      (STATUS_INSUFFICIENT_RESOURCES,
       { s1 with
          pageAllocCount := s1.pageAllocCount - 1,
          sharedAllocated := false })
    else
      let s2 := { s1 with
                   contigAllocCount := s1.contigAllocCount + 1,
                   msrpmAllocated := true }
      -- SvBuildNestedPageTables / SvBuildMsrPermissionsMap write into the
      -- shared block; they do not change the allocation state.
      let r := SvExecuteOnEachProcessor
        (fun cpu st => SvVirtualizeProcessor env cpu true st)
        env.numProcessors s2
      let status := r.1
      let completed := r.2.1
      let s3 := r.2.2
      if NtSuccess status then
        (status, s3)
      else if completed ≠ 0 then
        (status, SvDevirtualizeAllProcessors env.numProcessors s3)
      else
        (status,
         { s3 with
            contigAllocCount := s3.contigAllocCount - 1,
            msrpmAllocated := false,
            pageAllocCount := s3.pageAllocCount - 1,
            sharedAllocated := false })

/-! ## MSR permissions map (`SvBuildMsrPermissionsMap`)

The MSRPM is a bitmap with 2 bits per MSR (LSB = read intercept, MSB =
write intercept).  It is modelled as a function from bit index to `Bool`.
`RtlInitializeBitMap`/`RtlClearAllBits`/`RtlSetBits` are the documented
Windows RTL bitmap operations over the `SVM_MSR_PERMISSIONS_MAP_SIZE *
CHAR_BIT`-bit buffer. -/

def CHAR_BIT : Nat := 8

def PAGE_SIZE : Nat := 4096

/-- Modelled from the spec: `SVM_MSR_PERMISSIONS_MAP_SIZE` is defined in a
header not present under src; the fixed-size bitmap covers the three
architectural MSR ranges plus the reserved range, i.e. byte offsets
000h-1FFFh, two pages. -/
def SVM_MSR_PERMISSIONS_MAP_SIZE : Nat := PAGE_SIZE * 2

/-- Architectural MSR number of the extended-feature-enable register
(EFER), C000_0080h. -/
def IA32_MSR_EFER : Nat := 0xC0000080

/-- Architectural MSR number of the system-call-target register (LSTAR),
C000_0082h. -/
def IA32_MSR_LSTR : Nat := 0xC0000082

/-- Architectural MSR number of the SVM host-save-area register
(VM_HSAVE_PA), C001_0117h, as quoted in the source comments. -/
def IA32_MSR_VM_HSAVE : Nat := 0xC0010117

/-- `Msr::kIa32svmHsave`, the same VM_HSAVE_PA MSR number used by the
MSRPM builder. -/
def kIa32svmHsave : Nat := IA32_MSR_VM_HSAVE

/-- `RtlClearAllBits` on a bitmap of `size` bits: every bit of the buffer
becomes clear. -/
def RtlClearAllBits (size : Nat) (m : Nat → Bool) : Nat → Bool :=
  fun b => if b < size then false else m b

/-- `RtlSetBits m start len`: sets `len` consecutive bits starting at bit
index `start`. -/
def RtlSetBits (m : Nat → Bool) (start len : Nat) : Nat → Bool :=
  fun b => if start ≤ b ∧ b < start + len then true else m b

/-- `SvBuildMsrPermissionsMap` (SimpleSvm.cpp): clears the whole bitmap,
then sets the write-intercept bit for IA32_MSR_EFER, both bits for
IA32_MSR_LSTR, and both bits for the VM_HSAVE_PA MSR, using the byte
offsets of the second (C000_xxxxh) and third (C001_xxxxh) MSR ranges. -/
def SvBuildMsrPermissionsMap (msrPermissionsMap : Nat → Bool) : Nat → Bool :=
  let BITS_PER_MSR : Nat := 2
  let SECOND_MSR_RANGE_BASE : Nat := 0xc0000000
  let THIRD_MSR_RANGE_BASE : Nat := 0xC0010000
  let SECOND_MSRPM_OFFSET : Nat := 0x800 * CHAR_BIT
  let THIRD_MSRPM_OFFSET : Nat := 0x1000 * CHAR_BIT
  let m := RtlClearAllBits (SVM_MSR_PERMISSIONS_MAP_SIZE * CHAR_BIT)
             msrPermissionsMap
  let offsetFromBase := (IA32_MSR_EFER - SECOND_MSR_RANGE_BASE) * BITS_PER_MSR
  let offset := SECOND_MSRPM_OFFSET + offsetFromBase
  let m := RtlSetBits m (offset + 1) 1
  let offsetFromBase := (IA32_MSR_LSTR - SECOND_MSR_RANGE_BASE) * BITS_PER_MSR
  let offset := SECOND_MSRPM_OFFSET + offsetFromBase
  let m := RtlSetBits m offset 1
  let m := RtlSetBits m (offset + 1) 1
  let offsetFromBase := (kIa32svmHsave - THIRD_MSR_RANGE_BASE) * BITS_PER_MSR
  let offset := THIRD_MSRPM_OFFSET + offsetFromBase
  let m := RtlSetBits m offset 1
  let m := RtlSetBits m (offset + 1) 1
  m

/-- Total number of bits in the MSRPM bitmap. -/
def MsrpmBitCount : Nat := SVM_MSR_PERMISSIONS_MAP_SIZE * CHAR_BIT

/-- Bit index of the read-intercept bit for IA32_MSR_EFER. -/
def EferReadInterceptBit : Nat :=
  0x800 * CHAR_BIT + (IA32_MSR_EFER - 0xc0000000) * 2

/-- Bit index of the write-intercept bit for IA32_MSR_EFER. -/
def EferWriteInterceptBit : Nat := EferReadInterceptBit + 1

/-- Bit index of the read-intercept bit for IA32_MSR_LSTR. -/
def LstarReadInterceptBit : Nat :=
  0x800 * CHAR_BIT + (IA32_MSR_LSTR - 0xc0000000) * 2

/-- Bit index of the write-intercept bit for IA32_MSR_LSTR. -/
def LstarWriteInterceptBit : Nat := LstarReadInterceptBit + 1

/-- Bit index of the read-intercept bit for the VM_HSAVE_PA MSR. -/
def HsaveReadInterceptBit : Nat :=
  0x1000 * CHAR_BIT + (IA32_MSR_VM_HSAVE - 0xC0010000) * 2

/-- Bit index of the write-intercept bit for the VM_HSAVE_PA MSR. -/
def HsaveWriteInterceptBit : Nat := HsaveReadInterceptBit + 1

/-! ## Nested page tables (`SvBuildNestedPageTables`)

An NPT entry is a 64-bit value with bit fields; the fields the builder
touches are modelled as record fields.  The shared data holds one PML4
entry, 512 PDP entries, and 512×512 PDE (leaf, 2MB large page) entries,
modelled as total functions from indices. -/

structure NPT_ENTRY where
  pageFrameNumber : Nat
  valid : Bool
  write : Bool
  user : Bool
  largePage : Bool
deriving DecidableEq

/-- An all-zero page table entry (the shared data block is allocated
zero-filled). -/
def ZeroNptEntry : NPT_ENTRY :=
  { pageFrameNumber := 0, valid := false, write := false, user := false,
    largePage := false }

structure SHARED_VIRTUAL_PROCESSOR_DATA where
  pml4Entries : Nat → NPT_ENTRY
  pdpEntries : Nat → NPT_ENTRY
  pdeEntries : Nat → Nat → NPT_ENTRY

/-- The zero-filled shared data block as returned by
`SvAllocatePageAlingedPhysicalMemory`. -/
def ZeroSharedData : SHARED_VIRTUAL_PROCESSOR_DATA :=
  { pml4Entries := fun _ => ZeroNptEntry,
    pdpEntries := fun _ => ZeroNptEntry,
    pdeEntries := fun _ _ => ZeroNptEntry }

def PAGE_SHIFT : Nat := 12

/-- The inner loop body of `SvBuildNestedPageTables`: for the fixed PDP
index `i`, writes the leaf page directory entry `(i, j)` as a valid,
writable, user, large-page entry whose page frame number is
`i * 512 + j`. -/
def NptInnerStep (i : Nat) (s : SHARED_VIRTUAL_PROCESSOR_DATA) (j : Nat) :
    SHARED_VIRTUAL_PROCESSOR_DATA :=
  { s with pdeEntries := fun a b =>
      if a = i ∧ b = j then
        { s.pdeEntries i j with
           pageFrameNumber := i * 512 + j,
           valid := true, write := true, user := true, largePage := true }
      else s.pdeEntries a b }

/-- The outer loop body of `SvBuildNestedPageTables`: writes PDP entry `i`
(pointing at the base physical address of the i-th page directory) and
then runs the inner loop over the 512 page directory entries. -/
def NptOuterStep (pdeBasePa : Nat → Nat) (s : SHARED_VIRTUAL_PROCESSOR_DATA)
    (i : Nat) : SHARED_VIRTUAL_PROCESSOR_DATA :=
  let s := { s with pdpEntries := fun a =>
      if a = i then
        { s.pdpEntries i with
           pageFrameNumber := pdeBasePa i >>> PAGE_SHIFT,
           valid := true, write := true, user := true }
      else s.pdpEntries a }
  (List.range 512).foldl (NptInnerStep i) s

/-- `SvBuildNestedPageTables` (SimpleSvm.cpp).  `pdpBasePa` is the
physical address of the PDP table and `pdeBasePa i` the physical address
of the i-th page directory (obtained via `MmGetPhysicalAddress`, an
external collaborator, hence parameters).  Writes the single PML4 entry
and then loops over 512 PDP entries × 512 PDE entries building the
identity map. -/
def SvBuildNestedPageTables (pdpBasePa : Nat) (pdeBasePa : Nat → Nat)
    (s : SHARED_VIRTUAL_PROCESSOR_DATA) : SHARED_VIRTUAL_PROCESSOR_DATA :=
  let s := { s with pml4Entries := fun n =>
      if n = 0 then
        { s.pml4Entries 0 with
           pageFrameNumber := pdpBasePa >>> PAGE_SHIFT,
           valid := true, write := true, user := true }
      else s.pml4Entries n }
  (List.range 512).foldl (NptOuterStep pdeBasePa) s

/-! ## CPUID constants and the CPUID exit handler (`SvHandleCpuid`)

CPUID leaf numbers and the vendor signature ints.  The multi-character
constants of the source evaluate, on the target compiler, to the big-endian
packing of their characters; stored little-endian in memory they spell the
vendor string. -/

def CPUID_PROCESSOR_AND_PROCESSOR_FEATURE_IDENTIFIERS : Nat := 1

def CPUID_HV_VENDOR_AND_MAX_FUNCTIONS : Nat := 0x40000000

def CPUID_HV_INTERFACE : Nat := 0x40000001

/-- Modelled from the spec: `CPUID_UNLOAD_SIMPLE_SVM`, the private
unload-request leaf, is defined in a header not present under src.  Its
concrete value is a private 32-bit constant outside the standard and
hypervisor leaf ranges. -/
def CPUID_UNLOAD_SIMPLE_SVM : Nat := 0x41414141

/-- Modelled from the spec: `CPUID_HV_MAX`, the fixed maximum supported
hypervisor leaf returned in EAX for the vendor leaf (a header constant
not present under src); the interface leaf is the maximum. -/
def CPUID_HV_MAX : Nat := CPUID_HV_INTERFACE

/-- Modelled from the spec: the hypervisor-present feature bit of the
CPUID leaf 1 feature identifiers (bit 31), from a header not under src. -/
def CPUID_FN0000_0001_ECX_HYPERVISOR_PRESENT : Nat := 2 ^ 31

/-- 'NmvS' as a 32-bit int: bytes 4Eh 6Dh 76h 53h packed big-endian. -/
def HV_VENDOR_EBX : Nat := 0x4E6D7653

/-- ' tse' as a 32-bit int. -/
def HV_VENDOR_ECX : Nat := 0x20747365

/-- '    ' (four spaces) as a 32-bit int. -/
def HV_VENDOR_EDX : Nat := 0x20202020

/-- '0#vH' as a 32-bit int, the non-Hv#1 interface signature. -/
def HV_INTERFACE_EAX : Nat := 0x30237648

def DPL_SYSTEM : Nat := 0

/-- The Dpl field of a `SEGMENT_ATTRIBUTE` (bits 5..6 of the 16-bit
attribute value). -/
def SegmentDpl (attrib : Nat) : Nat := attrib / 2 ^ 5 % 2 ^ 2

/-- Conversion of a 32-bit value (an `int`) to a 64-bit unsigned register
by sign extension: values with bit 31 set get their upper 32 bits filled
with ones. -/
def Sext32to64 (v : Nat) : Nat :=
  let w := v % 2 ^ 32
  if w < 2 ^ 31 then w else w + 0xFFFFFFFF00000000

/-- The four 32-bit outputs of the CPUID instruction. -/
structure CpuidRegs where
  eax : Nat
  ebx : Nat
  ecx : Nat
  edx : Nat
deriving DecidableEq

/-! ## VMCB, per-processor data and guest context -/

/-- The VMCB fields the modelled code reads or writes (control area and
state-save area merged into one record). -/
structure VMCB where
  rax : Nat
  rsp : Nat
  rip : Nat
  rflags : Nat
  nrip : Nat
  exitCode : Nat
  exitInfo1 : Nat
  exitInfo2 : Nat
  exitIntInfo : Nat
  eventInj : Nat
  cpl : Nat
  lstar : Nat
  ssAttrib : Nat
deriving DecidableEq

/-- The inner vCPU of the nested case (`VCPUVMX`): the physical addresses
of the three VMCBs and the memory contents at the 02 and 12 addresses. -/
structure VCPUVMX where
  vmcb_guest_02_pa : Nat
  vmcb_guest_12_pa : Nat
  vmcb_host_02_pa : Nat
  vmcb02 : VMCB
  vmcb12 : VMCB
deriving DecidableEq

inductive CPU_MODE where
  | ProtectedMode
  | VmxMode
deriving DecidableEq

structure GUEST_REGISTERS where
  rax : Nat
  rbx : Nat
  rcx : Nat
  rdx : Nat
deriving DecidableEq

/-- Per-processor data as seen by the dispatcher: the outer guest VMCB,
the nest-data block (`CpuMode`, `vcpu_vmx`), and the numeric address of
the block itself (used by the unload encoding). -/
structure VIRTUAL_PROCESSOR_DATA where
  guestVmcb : VMCB
  cpuMode : CPU_MODE
  vcpuVmx : Option VCPUVMX
  selfAddress : Nat
deriving DecidableEq

inductive EXIT_REASON where
  | EXIT_NOTHING
  | EXIT_EXIT
deriving DecidableEq

/-- The state a #VMEXIT handler can read and mutate: the per-processor
data, the guest GPR snapshot, and the `ExitVm` flag of the guest
context. -/
structure HState where
  vp : VIRTUAL_PROCESSOR_DATA
  regs : GUEST_REGISTERS
  exitVm : EXIT_REASON
deriving DecidableEq

/-- `SvInjectGeneralProtectionException` (SvmUtil.cpp): writes an EVENTINJ
value with Vector = 13, Type = 3, ErrorCodeValid = 1, Valid = 1 into the
outer guest VMCB. -/
def GP_EVENTINJ : Nat := 13 + 3 * 2 ^ 8 + 2 ^ 11 + 2 ^ 31

def SvInjectGeneralProtectionException (vp : VIRTUAL_PROCESSOR_DATA) :
    VIRTUAL_PROCESSOR_DATA :=
  { vp with guestVmcb := { vp.guestVmcb with eventInj := GP_EVENTINJ } }

/-- The CPUID register values after the `switch (leaf)` of `SvHandleCpuid`:
the raw `__cpuidex` results, modified for the feature-identifier leaf
(hypervisor-present bit OR-ed into `registers[3]` as the source does), the
vendor leaf, and the interface leaf. -/
def SvCpuidResultRegisters (cpuidex : Nat → Nat → CpuidRegs) (st : HState) :
    CpuidRegs :=
  let leaf := st.regs.rax % 2 ^ 32
  let subLeaf := st.regs.rcx % 2 ^ 32
  let r := cpuidex leaf subLeaf
  if leaf = CPUID_PROCESSOR_AND_PROCESSOR_FEATURE_IDENTIFIERS then
    { r with edx := r.edx ||| CPUID_FN0000_0001_ECX_HYPERVISOR_PRESENT }
  else if leaf = CPUID_HV_VENDOR_AND_MAX_FUNCTIONS then
    { eax := CPUID_HV_MAX, ebx := HV_VENDOR_EBX, ecx := HV_VENDOR_ECX,
      edx := HV_VENDOR_EDX }
  else if leaf = CPUID_HV_INTERFACE then
    { eax := HV_INTERFACE_EAX, ebx := 0, ecx := 0, edx := 0 }
  else r

/-- `SvHandleCpuid` (SimpleSvm.cpp): executes CPUID as requested (with the
leaf-specific modifications above), marks the exit request when the unload
leaf and sub-leaf are given from DPL 0, stores the four results into the
guest's 64-bit GPRs by `int` → `UINT64` conversion (sign extension), and
advances the guest RIP to the hardware-reported next instruction. -/
def SvHandleCpuid (cpuidex : Nat → Nat → CpuidRegs) (st : HState) : HState :=
  let leaf := st.regs.rax % 2 ^ 32
  let subLeaf := st.regs.rcx % 2 ^ 32
  let r := SvCpuidResultRegisters cpuidex st
  let exitVm :=
    if leaf = CPUID_UNLOAD_SIMPLE_SVM ∧ subLeaf = CPUID_UNLOAD_SIMPLE_SVM ∧
        SegmentDpl st.vp.guestVmcb.ssAttrib = DPL_SYSTEM then
      EXIT_REASON.EXIT_EXIT
    else st.exitVm
  { st with
     regs := { st.regs with
        rax := Sext32to64 r.eax, rbx := Sext32to64 r.ebx,
        rcx := Sext32to64 r.ecx, rdx := Sext32to64 r.edx },
     exitVm := exitVm,
     vp := { st.vp with
        guestVmcb := { st.vp.guestVmcb with rip := st.vp.guestVmcb.nrip } } }

/-! ## The installation test (`SvIsSimpleSvmHypervisorInstalled`) -/

/-- Byte `k` (little-endian) of a 32-bit value, as laid out in memory by
`RtlCopyMemory` of an `int`. -/
def ByteAt (v k : Nat) : Nat := v / 256 ^ k % 256

/-- The twelve bytes of the `vendorId` buffer built from EBX, ECX, EDX. -/
def VendorIdBytes (ebx ecx edx : Nat) : List Nat :=
  [ByteAt ebx 0, ByteAt ebx 1, ByteAt ebx 2, ByteAt ebx 3,
   ByteAt ecx 0, ByteAt ecx 1, ByteAt ecx 2, ByteAt ecx 3,
   ByteAt edx 0, ByteAt edx 1, ByteAt edx 2, ByteAt edx 3]

/-- ASCII bytes of the signature the test compares against: `SvmNest`
followed by five spaces. -/
def SvmNestSignatureBytes : List Nat :=
  [0x53, 0x76, 0x6D, 0x4E, 0x65, 0x73, 0x74, 0x20, 0x20, 0x20, 0x20, 0x20]

/-- `SvIsSimpleSvmHypervisorInstalled` (SimpleSvm.cpp), as a function of
the EBX/ECX/EDX values returned by CPUID leaf 40000000h: copies their
bytes into `vendorId` and strcmp-compares with the signature string. -/
def SvIsSimpleSvmHypervisorInstalled (ebx ecx edx : Nat) : Bool :=
  decide (VendorIdBytes ebx ecx edx = SvmNestSignatureBytes)

/-! ## The VM-exit dispatcher (`SvHandleVmExit`) -/

/-- Architectural SVM exit codes (AMD APM vol. 2; the header defining them
is not under src). -/
def VMEXIT_CPUID : Nat := 0x72

def VMEXIT_MSR : Nat := 0x7C

def VMEXIT_VMRUN : Nat := 0x80

def VMEXIT_VMMCALL : Nat := 0x81

def VMEXIT_NPF : Nat := 0x400

def VMEXIT_EXCEPTION_BP : Nat := 0x43

/-- The #VMEXIT handlers whose bodies live outside src (SvmTraps /
HookSyscall).  Each takes the handler state; `none` models a handler that
does not return (e.g. bug-checks). -/
structure Handlers where
  handleEffer : HState → Option HState
  handleLstrRead : HState → Option HState
  handleSvmHsave : HState → Option HState
  handleVmrunEx : HState → Option HState
  handleVmmcall : HState → Option HState
  handleCpuidForL2ToL1 : HState → Option HState
  handleMsrAccessNest : HState → Option HState
  handleVmrunExForL1ToL2 : HState → Option HState
  handleVmmcallNest : HState → Option HState
  handleBreakPointExceptionNest : HState → Option HState

/-- `SvHandleMsrAccess` (SimpleSvm.cpp): dispatches on the MSR number in
RCX; EFER, LSTAR and VM_HSAVE_PA go to their handlers, any other trapped
MSR gets a #GP injected into the guest. -/
def SvHandleMsrAccess (h : Handlers) (st : HState) : Option HState :=
  let msrNum := st.regs.rcx
  if msrNum = IA32_MSR_EFER then h.handleEffer st
  else if msrNum = IA32_MSR_LSTR then h.handleLstrRead st
  else if msrNum = IA32_MSR_VM_HSAVE then h.handleSvmHsave st
  else some { st with vp := SvInjectGeneralProtectionException st.vp }

/-- The outcome of `SvHandleVmExit`: a deliberate crash (`KeBugCheck` or a
handler that does not return), the unload path (returns with
`ExitVm = EXIT_EXIT` after encoding the per-processor block address into
the registers), or the normal resume path. -/
inductive VMEXIT_OUTCOME where
  | crash
  | unloaded (st : HState)
  | resumed (st : HState)
deriving DecidableEq

/-- The code after the `switch` in `SvHandleVmExit`: the unload path when
`ExitVm = EXIT_EXIT` (encode the per-processor block address in EDX:EAX,
the resume RIP in RBX and the stack in RCX, then leave guest mode), else
the write-back of the snapshot RAX into the VMCB hardware will next load
it from — the outer guest VMCB in flat mode, the 02 VMCB in nested
mode. -/
def SvVmExitEpilogue (st : HState) : VMEXIT_OUTCOME :=
  if st.exitVm = EXIT_REASON.EXIT_EXIT then
    VMEXIT_OUTCOME.unloaded
      { st with regs := { st.regs with
          rax := st.vp.selfAddress % 2 ^ 32,
          rbx := st.vp.guestVmcb.nrip,
          rcx := st.vp.guestVmcb.rsp,
          rdx := st.vp.selfAddress / 2 ^ 32 } }
  else if st.vp.cpuMode ≠ CPU_MODE.VmxMode then
    VMEXIT_OUTCOME.resumed
      { st with vp := { st.vp with
          guestVmcb := { st.vp.guestVmcb with rax := st.regs.rax } } }
  else
    match st.vp.vcpuVmx with
    | none => VMEXIT_OUTCOME.crash
    | some v =>
      VMEXIT_OUTCOME.resumed
        { st with vp := { st.vp with
            vcpuVmx := some { v with
              vmcb02 := { v.vmcb02 with rax := st.regs.rax } } } }

/-- The continuation after the `switch` of `SvHandleVmExit`: `none`
(an unhandled exit code, or a handler that did not return) is the
`KeBugCheck` crash; otherwise the epilogue runs on the state left by the
switch. -/
def DispatchTail (afterSwitch : Option HState) : VMEXIT_OUTCOME :=
  match afterSwitch with
  | none => VMEXIT_OUTCOME.crash
  | some st1 => SvVmExitEpilogue st1

/-- `SvHandleVmExit` (SimpleSvm.cpp): reflects the guest RAX from the
authoritative VMCB into the register snapshot, dispatches on the exit
code — against the outer guest VMCB in flat mode and against the 02 VMCB
in nested mode — with unhandled exit codes bug-checking, and finishes via
`SvVmExitEpilogue`.  The VMLOAD calls are hardware state loads with no
effect on the modelled state. -/
def SvHandleVmExit (cpuidex : Nat → Nat → CpuidRegs) (h : Handlers)
    (vp : VIRTUAL_PROCESSOR_DATA) (guestRegisters : GUEST_REGISTERS) :
    VMEXIT_OUTCOME :=
  if vp.cpuMode ≠ CPU_MODE.VmxMode then
    let regs := { guestRegisters with rax := vp.guestVmcb.rax }
    let st : HState := ⟨vp, regs, EXIT_REASON.EXIT_NOTHING⟩
    let afterSwitch : Option HState :=
      if vp.guestVmcb.exitCode = VMEXIT_CPUID then
        some (SvHandleCpuid cpuidex st)
      else if vp.guestVmcb.exitCode = VMEXIT_MSR then
        SvHandleMsrAccess h st
      else if vp.guestVmcb.exitCode = VMEXIT_VMRUN then
        h.handleVmrunEx st
      else if vp.guestVmcb.exitCode = VMEXIT_VMMCALL then
        h.handleVmmcall st
      else if vp.guestVmcb.exitCode = VMEXIT_NPF then
        -- SV_DEBUG_BREAK() only; falls out of the switch and resumes.
        some st
      else
        -- default: KeBugCheck(MANUALLY_INITIATED_CRASH).
        none
    DispatchTail afterSwitch
  else
    match vp.vcpuVmx with
    | none => VMEXIT_OUTCOME.crash
    | some v =>
      let regs := { guestRegisters with rax := v.vmcb02.rax }
      let st : HState := ⟨vp, regs, EXIT_REASON.EXIT_NOTHING⟩
      let afterSwitch : Option HState :=
        if v.vmcb02.exitCode = VMEXIT_CPUID then
          h.handleCpuidForL2ToL1 st
        else if v.vmcb02.exitCode = VMEXIT_MSR then
          h.handleMsrAccessNest st
        else if v.vmcb02.exitCode = VMEXIT_VMRUN then
          h.handleVmrunExForL1ToL2 st
        else if v.vmcb02.exitCode = VMEXIT_VMMCALL then
          h.handleVmmcallNest st
        else if v.vmcb02.exitCode = VMEXIT_EXCEPTION_BP then
          h.handleBreakPointExceptionNest st
        else
          none
      DispatchTail afterSwitch

/-! ## The nested merge step (`SaveGuestVmcb12FromGuestVmcb02`) -/

/-- `SaveGuestVmcb12FromGuestVmcb02` (BaseUtil.cpp): propagates the
hardware-executed 02 VMCB's state and exit information into L1's logical
12 VMCB, rewrites the snapshot RAX to the 12 VMCB's physical address, and
repoints the 02 VMCB's resume point back into the outer hypervisor.
`none` models the fault on a null `vcpu_vmx`. -/
def SaveGuestVmcb12FromGuestVmcb02 (st : HState) : Option HState :=
  match st.vp.vcpuVmx with
  | none => none
  | some v =>
    let vmcb02 := v.vmcb02
    let vmcb12 := v.vmcb12
    let vmcb12 := { vmcb12 with rax := st.regs.rax }
    let vmcb12 := { vmcb12 with rsp := vmcb02.rsp }
    let vmcb12 := { vmcb12 with rflags := vmcb02.rflags }
    let vmcb12 := { vmcb12 with rip := vmcb02.rip }
    let vmcb12 := { vmcb12 with nrip := vmcb02.nrip }
    let vmcb12 := { vmcb12 with exitCode := vmcb02.exitCode }
    let vmcb12 := { vmcb12 with exitInfo1 := vmcb02.exitInfo1 }
    let vmcb12 := { vmcb12 with exitInfo2 := vmcb02.exitInfo2 }
    let vmcb12 := { vmcb12 with exitIntInfo := vmcb02.exitIntInfo }
    let vmcb12 := { vmcb12 with eventInj := vmcb02.eventInj }
    let vmcb12 := { vmcb12 with cpl := vmcb02.cpl }
    let vmcb12 := { vmcb12 with lstar := vmcb02.lstar }
    let regs := { st.regs with rax := v.vmcb_guest_12_pa }
    let vmcb02 := { vmcb02 with rsp := st.vp.guestVmcb.rsp }
    let vmcb02 := { vmcb02 with rip := st.vp.guestVmcb.nrip }
    let vmcb02 := { vmcb02 with rflags := st.vp.guestVmcb.rflags }
    some { st with
      vp := { st.vp with
        vcpuVmx := some { v with vmcb02 := vmcb02, vmcb12 := vmcb12 } },
      regs := regs }

/-! ## Auxiliary definitions used by the statements and witnesses -/

/-- The leaf page directory entry written by the inner loop of
`SvBuildNestedPageTables` for indices `(i, j)`. -/
def NptLeafEntry (i j : Nat) : NPT_ENTRY :=
  { pageFrameNumber := i * 512 + j, valid := true, write := true,
    user := true, largePage := true }

/-- A callback for `SvExecuteOnEachProcessor` instrumented with an
invocation trace: returns `f i` as status and appends `i` to the list of
invoked processor indices. -/
def TraceCallback (f : Nat → NTSTATUS) : Nat → List Nat → NTSTATUS × List Nat :=
  fun i l => (f i, l ++ [i])

/-- The machine state before any virtualization: no outstanding
allocations, no processor (ever) virtualized, no shared data. -/
def FreshMachineState : MachineState :=
  { pageAllocCount := 0, contigAllocCount := 0,
    virtualized := fun _ => false, everVirtualized := fun _ => false,
    sharedAllocated := false, msrpmAllocated := false }

/-- Machine state during `SvVirtualizeAllProcessors` after the shared
allocations and after the first `j` processors were virtualized. -/
def VirtStateAfter (j : Nat) : MachineState :=
  { pageAllocCount := 1 + 2 * j, contigAllocCount := 1,
    virtualized := fun p => decide (p < j),
    everVirtualized := fun p => decide (p < j),
    sharedAllocated := true, msrpmAllocated := true }

/-- Machine state during `SvDevirtualizeAllProcessors` started from
`VirtStateAfter k`, after the first `m` processors were visited. -/
def DevirtStateAfter (k m : Nat) : MachineState :=
  { pageAllocCount := 1 + 2 * (k - m), contigAllocCount := 1,
    virtualized := fun p => decide (m ≤ p ∧ p < k),
    everVirtualized := fun p => decide (p < k),
    sharedAllocated := true, msrpmAllocated := true }

/-- Handlers for the externally-defined #VMEXIT handlers that return their
state unchanged; used for concrete evaluations. -/
def TestHandlers : Handlers :=
  { handleEffer := some, handleLstrRead := some, handleSvmHsave := some,
    handleVmrunEx := some, handleVmmcall := some,
    handleCpuidForL2ToL1 := some, handleMsrAccessNest := some,
    handleVmrunExForL1ToL2 := some, handleVmmcallNest := some,
    handleBreakPointExceptionNest := some }

/-- A hardware CPUID returning zeroes. -/
def TestCpuidex : Nat → Nat → CpuidRegs := fun _ _ => ⟨0, 0, 0, 0⟩

/-- A hardware CPUID whose results all have bit 31 set. -/
def TestCpuidexHighBit : Nat → Nat → CpuidRegs :=
  fun _ _ => ⟨0x80000000, 0x90000000, 0xA0000000, 0xFFFFFFFF⟩

/-- A concrete outer guest VMCB with a nested-page-fault exit code. -/
def TestVmcbNpf : VMCB :=
  { rax := 5, rsp := 6, rip := 7, rflags := 8, nrip := 9,
    exitCode := VMEXIT_NPF, exitInfo1 := 0, exitInfo2 := 0,
    exitIntInfo := 0, eventInj := 0, cpl := 0, lstar := 0, ssAttrib := 0 }

/-- Concrete flat-mode per-processor data whose guest VMCB reports a
nested page fault. -/
def TestVpNpf : VIRTUAL_PROCESSOR_DATA :=
  { guestVmcb := TestVmcbNpf, cpuMode := CPU_MODE.ProtectedMode,
    vcpuVmx := none, selfAddress := 0 }

/-- A concrete guest GPR snapshot. -/
def TestRegs : GUEST_REGISTERS := ⟨1, 2, 3, 4⟩

/-- A concrete 02 VMCB with pairwise distinct field values. -/
def TestVmcb02 : VMCB :=
  { rax := 11, rsp := 12, rip := 13, rflags := 14, nrip := 15,
    exitCode := 16, exitInfo1 := 17, exitInfo2 := 18, exitIntInfo := 19,
    eventInj := 20, cpl := 21, lstar := 22, ssAttrib := 23 }

/-- An all-zero VMCB. -/
def TestVmcbZero : VMCB :=
  { rax := 0, rsp := 0, rip := 0, rflags := 0, nrip := 0,
    exitCode := 0, exitInfo1 := 0, exitInfo2 := 0, exitIntInfo := 0,
    eventInj := 0, cpl := 0, lstar := 0, ssAttrib := 0 }

/-- A concrete inner vCPU. -/
def TestVcpu : VCPUVMX :=
  { vmcb_guest_02_pa := 100, vmcb_guest_12_pa := 200,
    vmcb_host_02_pa := 300, vmcb02 := TestVmcb02, vmcb12 := TestVmcbZero }

/-- A concrete nested-mode handler state. -/
def TestStNested : HState :=
  { vp := { guestVmcb := TestVmcbNpf, cpuMode := CPU_MODE.VmxMode,
            vcpuVmx := some TestVcpu, selfAddress := 0 },
    regs := TestRegs, exitVm := EXIT_REASON.EXIT_NOTHING }

/-- A handler state whose RAX selects the hypervisor vendor CPUID leaf. -/
def TestStHvLeaf : HState :=
  { vp := TestVpNpf, regs := ⟨0x40000000, 0, 0, 0⟩,
    exitVm := EXIT_REASON.EXIT_NOTHING }

/-- A handler state whose RAX selects CPUID leaf 0. -/
def TestStLeaf0 : HState :=
  { vp := TestVpNpf, regs := ⟨0, 0, 0, 0⟩,
    exitVm := EXIT_REASON.EXIT_NOTHING }

/-- A lifecycle environment where everything succeeds on a one-processor
machine. -/
def TestVirtEnv : VirtEnv :=
  { svmSupported := true, sharedAllocOk := true, msrpmAllocOk := true,
    vpAllocOk := fun _ => true, nestAllocOk := fun _ => true,
    numProcessors := 1 }

/-- A machine state where processor 0 is virtualized and the shared data
is in place. -/
def TestStateVirt0 : MachineState :=
  { pageAllocCount := 0, contigAllocCount := 0,
    virtualized := fun p => decide (p = 0),
    everVirtualized := fun p => decide (p = 0),
    sharedAllocated := true, msrpmAllocated := true }

/-- A lifecycle environment on a three-processor machine where the
per-processor allocation fails on processor 2. -/
def TestEnvFailAt2 : VirtEnv :=
  { svmSupported := true, sharedAllocOk := true, msrpmAllocOk := true,
    vpAllocOk := fun p => decide (p < 2), nestAllocOk := fun _ => true,
    numProcessors := 3 }

/-- A status function failing exactly on processor 1. -/
def TestStatusFailAt1 : Nat → NTSTATUS :=
  fun i => if i = 1 then STATUS_INSUFFICIENT_RESOURCES else STATUS_SUCCESS

/-! # Theorems -/

/-- C4 counterexample: the claim says `SvBuildMsrPermissionsMap` sets two
bits — read-intercept and write-intercept — for the EFER MSR, but on the
zero-initialized buffer the read-intercept bit of EFER is left clear: the
function sets only five bits, not six. -/
theorem C4_counterexample_efer_read_bit_clear :
    SvBuildMsrPermissionsMap (fun _ => false) EferReadInterceptBit = false ∧
    EferReadInterceptBit < MsrpmBitCount := by
  constructor <;> decide

/-- C4 (amended): for every input buffer, `SvBuildMsrPermissionsMap` sets
exactly the same 5 bits — the write-intercept bit (only) for EFER, both
bits for LSTAR, and both bits for VM_HSAVE_PA — and leaves every other
bit of the map clear, regardless of the input contents (hence of how many
times it is called). -/
theorem SvBuildMsrPermissionsMap_sets_exactly_five_bits
    (m : Nat → Bool) (b : Nat) (hb : b < MsrpmBitCount) :
    SvBuildMsrPermissionsMap m b = true ↔
      (b = EferWriteInterceptBit ∨
       b = LstarReadInterceptBit ∨ b = LstarWriteInterceptBit ∨
       b = HsaveReadInterceptBit ∨ b = HsaveWriteInterceptBit) := by
  have hb' : b < 65536 := by
    simpa [MsrpmBitCount, SVM_MSR_PERMISSIONS_MAP_SIZE, PAGE_SIZE, CHAR_BIT]
      using hb
  simp only [SvBuildMsrPermissionsMap, RtlSetBits, RtlClearAllBits,
    EferWriteInterceptBit, EferReadInterceptBit, LstarReadInterceptBit,
    LstarWriteInterceptBit, HsaveReadInterceptBit, HsaveWriteInterceptBit,
    SVM_MSR_PERMISSIONS_MAP_SIZE, PAGE_SIZE, CHAR_BIT, IA32_MSR_EFER,
    IA32_MSR_LSTR, IA32_MSR_VM_HSAVE, kIa32svmHsave]
  norm_num
  constructor
  · rintro (⟨h1, h2⟩ | ⟨h1, h2⟩ | ⟨h1, h2⟩ | ⟨h1, h2⟩ | ⟨h1, h2⟩ | ⟨h1, h2⟩) <;>
      omega
  · rintro (rfl | rfl | rfl | rfl | rfl) <;> norm_num

/-- C4 witness: the write-intercept bit of EFER is inside the map and is
reported set by the amended characterization. -/
theorem SvBuildMsrPermissionsMap_sets_exactly_five_bits_witness :
    EferWriteInterceptBit < MsrpmBitCount ∧
    SvBuildMsrPermissionsMap (fun _ => false) EferWriteInterceptBit = true :=
  ⟨by decide,
   (SvBuildMsrPermissionsMap_sets_exactly_five_bits (fun _ => false)
      EferWriteInterceptBit (by decide)).mpr (Or.inl rfl)⟩

/-- The inner loop of `SvBuildNestedPageTables` over `j < n` writes the
leaf entries `(i, j)` and touches nothing else of the leaf table. -/
theorem npt_inner_fold_pde (i : Nat) :
    ∀ (n : Nat) (s : SHARED_VIRTUAL_PROCESSOR_DATA) (a b : Nat),
      ((List.range n).foldl (NptInnerStep i) s).pdeEntries a b =
        if a = i ∧ b < n then NptLeafEntry i b else s.pdeEntries a b := by
  intro n
  induction n with
  | zero => simp
  | succ n ih =>
    intro s a b
    rw [List.range_succ, List.foldl_append, List.foldl_cons, List.foldl_nil]
    show (NptInnerStep i ((List.range n).foldl (NptInnerStep i) s) n).pdeEntries a b = _
    simp only [NptInnerStep]
    by_cases hab : a = i ∧ b = n
    · simp [hab, NptLeafEntry, ih, hab.1, hab.2]
    · simp only [hab, if_false]
      rw [ih]
      by_cases ha : a = i
      · have hbn : b ≠ n := fun hb => hab ⟨ha, hb⟩
        by_cases hbn' : b < n
        · simp [ha, hbn', Nat.lt_succ_of_lt hbn']
        · have : ¬ b < n + 1 := by omega
          simp [hbn', this]
      · simp [ha]

/-- The inner loop does not modify the PDP entries. -/
theorem npt_inner_fold_pdp (i : Nat) :
    ∀ (n : Nat) (s : SHARED_VIRTUAL_PROCESSOR_DATA),
      ((List.range n).foldl (NptInnerStep i) s).pdpEntries = s.pdpEntries := by
  intro n
  induction n with
  | zero => simp
  | succ n ih =>
    intro s
    rw [List.range_succ, List.foldl_append, List.foldl_cons, List.foldl_nil]
    show (NptInnerStep i ((List.range n).foldl (NptInnerStep i) s) n).pdpEntries = _
    simp only [NptInnerStep]
    exact ih s

/-- The outer loop of `SvBuildNestedPageTables` over `i < n` fills the
leaf entries of the first `n` page directories with the identity-map
large-page entries. -/
theorem npt_outer_fold_pde (pdeBasePa : Nat → Nat) :
    ∀ (n : Nat) (s : SHARED_VIRTUAL_PROCESSOR_DATA) (a b : Nat), b < 512 →
      ((List.range n).foldl (NptOuterStep pdeBasePa) s).pdeEntries a b =
        if a < n then NptLeafEntry a b else s.pdeEntries a b := by
  intro n
  induction n with
  | zero => simp
  | succ n ih =>
    intro s a b hb
    rw [List.range_succ, List.foldl_append, List.foldl_cons, List.foldl_nil]
    show (NptOuterStep pdeBasePa
            ((List.range n).foldl (NptOuterStep pdeBasePa) s) n).pdeEntries a b = _
    simp only [NptOuterStep]
    rw [npt_inner_fold_pde]
    by_cases ha : a = n
    · simp [ha, hb]
    · have h1 : ¬ (a = n ∧ b < 512) := fun hc => ha hc.1
      simp only [h1, if_false]
      rw [ih s a b hb]
      by_cases h2 : a < n
      · simp [h2, Nat.lt_succ_of_lt h2]
      · have : ¬ a < n + 1 := by omega
        simp [h2, this]

/-- C5: after `SvBuildNestedPageTables` runs on the zeroed shared data,
the page tables form an identity map: for every guest-physical 2MB-page
index `i < 512 * 512`, the leaf page directory entry at position
`(i / 512, i % 512)` has its page frame number equal to `i` with the
Valid, Write, User, and LargePage bits all set. -/
theorem SvBuildNestedPageTables_identity_map (pdpBasePa : Nat)
    (pdeBasePa : Nat → Nat) (i : Nat) (hi : i < 512 * 512) :
    (SvBuildNestedPageTables pdpBasePa pdeBasePa ZeroSharedData).pdeEntries
        (i / 512) (i % 512) =
      { pageFrameNumber := i, valid := true, write := true, user := true,
        largePage := true } := by
  have hdiv : i / 512 < 512 := by omega
  have hmod : i % 512 < 512 := by omega
  simp only [SvBuildNestedPageTables]
  rw [npt_outer_fold_pde _ _ _ _ _ hmod]
  simp only [hdiv, if_true, NptLeafEntry]
  congr 1
  omega

/-- C5 witness: the leaf entry for guest-physical 2MB-page index 513 sits
at page directory position (1, 1) and maps page frame 513. -/
theorem SvBuildNestedPageTables_identity_map_witness :
    (SvBuildNestedPageTables 0 (fun _ => 0) ZeroSharedData).pdeEntries
        (513 / 512) (513 % 512) =
      { pageFrameNumber := 513, valid := true, write := true, user := true,
        largePage := true } :=
  SvBuildNestedPageTables_identity_map 0 (fun _ => 0) 513 (by norm_num)

/-- C6: `SaveGuestVmcb12FromGuestVmcb02` copies the exit code, exit info
1, exit info 2, exit interrupt info, event-injection field, CPL and LSTAR
from the hardware-executed 02 VMCB into L1's logical 12 VMCB, and sets
the guest RAX of the register snapshot to the physical address of the 12
VMCB. -/
theorem SaveGuestVmcb12FromGuestVmcb02_merge (st : HState) (v : VCPUVMX)
    (h : st.vp.vcpuVmx = some v) :
    ∃ st', SaveGuestVmcb12FromGuestVmcb02 st = some st' ∧
      ∃ v', st'.vp.vcpuVmx = some v' ∧
        v'.vmcb12.exitCode = v.vmcb02.exitCode ∧
        v'.vmcb12.exitInfo1 = v.vmcb02.exitInfo1 ∧
        v'.vmcb12.exitInfo2 = v.vmcb02.exitInfo2 ∧
        v'.vmcb12.exitIntInfo = v.vmcb02.exitIntInfo ∧
        v'.vmcb12.eventInj = v.vmcb02.eventInj ∧
        v'.vmcb12.cpl = v.vmcb02.cpl ∧
        v'.vmcb12.lstar = v.vmcb02.lstar ∧
        st'.regs.rax = v.vmcb_guest_12_pa := by
  refine ⟨_, by rw [SaveGuestVmcb12FromGuestVmcb02, h], ?_⟩
  exact ⟨_, rfl, rfl, rfl, rfl, rfl, rfl, rfl, rfl, rfl⟩

/-- C6 witness: the merge step on the concrete nested state copies the
02 VMCB's exit fields into the 12 VMCB and leaves the 12 VMCB's physical
address (200) in RAX. -/
theorem SaveGuestVmcb12FromGuestVmcb02_merge_witness :
    TestStNested.vp.vcpuVmx = some TestVcpu ∧
    ∃ st', SaveGuestVmcb12FromGuestVmcb02 TestStNested = some st' ∧
      ∃ v', st'.vp.vcpuVmx = some v' ∧
        v'.vmcb12.exitCode = TestVcpu.vmcb02.exitCode ∧
        v'.vmcb12.exitInfo1 = TestVcpu.vmcb02.exitInfo1 ∧
        v'.vmcb12.exitInfo2 = TestVcpu.vmcb02.exitInfo2 ∧
        v'.vmcb12.exitIntInfo = TestVcpu.vmcb02.exitIntInfo ∧
        v'.vmcb12.eventInj = TestVcpu.vmcb02.eventInj ∧
        v'.vmcb12.cpl = TestVcpu.vmcb02.cpl ∧
        v'.vmcb12.lstar = TestVcpu.vmcb02.lstar ∧
        st'.regs.rax = TestVcpu.vmcb_guest_12_pa :=
  ⟨rfl, SaveGuestVmcb12FromGuestVmcb02_merge TestStNested TestVcpu rfl⟩

/-- On the resume path of the dispatcher epilogue, the snapshot RAX has
been written back into the VMCB hardware will next load it from. -/
theorem svVmExitEpilogue_resumed_rax (st st' : HState)
    (h : SvVmExitEpilogue st = VMEXIT_OUTCOME.resumed st') :
    (st'.vp.cpuMode ≠ CPU_MODE.VmxMode →
       st'.vp.guestVmcb.rax = st'.regs.rax) ∧
    (st'.vp.cpuMode = CPU_MODE.VmxMode →
       ∃ v, st'.vp.vcpuVmx = some v ∧ v.vmcb02.rax = st'.regs.rax) := by
  unfold SvVmExitEpilogue at h
  split at h
  · simp at h
  · split at h
    next hexit hmode =>
      simp only [VMEXIT_OUTCOME.resumed.injEq] at h
      subst h
      exact ⟨fun _ => rfl, fun hc => absurd hc hmode⟩
    next hexit hmode =>
      split at h
      · simp at h
      · simp only [VMEXIT_OUTCOME.resumed.injEq] at h
        subst h
        exact ⟨fun hc => absurd hc hmode, fun _ => ⟨_, rfl, rfl⟩⟩

/-- If the dispatch tail lands on the resume path, the write-back
property of `SvVmExitEpilogue` holds. -/
theorem dispatchTail_resumed_rax (o : Option HState) (st' : HState)
    (h : DispatchTail o = VMEXIT_OUTCOME.resumed st') :
    (st'.vp.cpuMode ≠ CPU_MODE.VmxMode →
       st'.vp.guestVmcb.rax = st'.regs.rax) ∧
    (st'.vp.cpuMode = CPU_MODE.VmxMode →
       ∃ v, st'.vp.vcpuVmx = some v ∧ v.vmcb02.rax = st'.regs.rax) := by
  cases o with
  | none => simp [DispatchTail] at h
  | some st1 => exact svVmExitEpilogue_resumed_rax _ _ h

/-- C7: whenever the VM-exit dispatcher returns through the normal
(non-unload) resume path — for every exit code, both emulation modes, any
hardware CPUID behaviour and any behaviour of the externally-defined
handlers — the guest RAX value held in the register snapshot has been
written back into the VMCB hardware will next load it from: the outer
guest VMCB in flat mode, the 02 VMCB in nested mode. -/
theorem SvHandleVmExit_rax_writeback (cpuidex : Nat → Nat → CpuidRegs)
    (h : Handlers) (vp : VIRTUAL_PROCESSOR_DATA)
    (guestRegisters : GUEST_REGISTERS) (st' : HState)
    (hres : SvHandleVmExit cpuidex h vp guestRegisters =
      VMEXIT_OUTCOME.resumed st') :
    (st'.vp.cpuMode ≠ CPU_MODE.VmxMode →
       st'.vp.guestVmcb.rax = st'.regs.rax) ∧
    (st'.vp.cpuMode = CPU_MODE.VmxMode →
       ∃ v, st'.vp.vcpuVmx = some v ∧ v.vmcb02.rax = st'.regs.rax) := by
  unfold SvHandleVmExit at hres
  by_cases hmode : vp.cpuMode ≠ CPU_MODE.VmxMode
  · rw [if_pos hmode] at hres
    exact dispatchTail_resumed_rax _ _ hres
  · rw [if_neg hmode] at hres
    split at hres
    · simp at hres
    · exact dispatchTail_resumed_rax _ _ hres

/-- C7 witness: on the concrete flat-mode NPF exit the dispatcher resumes
and the outer guest VMCB's RAX equals the snapshot RAX. -/
theorem SvHandleVmExit_rax_writeback_witness :
    (SvHandleVmExit TestCpuidex TestHandlers TestVpNpf TestRegs =
       VMEXIT_OUTCOME.resumed ⟨TestVpNpf, ⟨5, 2, 3, 4⟩,
         EXIT_REASON.EXIT_NOTHING⟩) ∧
    (⟨TestVpNpf, ⟨5, 2, 3, 4⟩, EXIT_REASON.EXIT_NOTHING⟩ :
        HState).vp.guestVmcb.rax = 5 := by
  have heq : SvHandleVmExit TestCpuidex TestHandlers TestVpNpf TestRegs =
      VMEXIT_OUTCOME.resumed ⟨TestVpNpf, ⟨5, 2, 3, 4⟩,
        EXIT_REASON.EXIT_NOTHING⟩ := by decide
  have h := SvHandleVmExit_rax_writeback TestCpuidex TestHandlers TestVpNpf
    TestRegs _ heq
  exact ⟨heq, h.1 (by decide)⟩

/-- C3 counterexample: a flat-mode nested-page-fault exit does not crash
the system — the dispatcher performs only a debug break and resumes the
guest through the normal path. -/
theorem C3_counterexample_npf_resumes :
    SvHandleVmExit TestCpuidex TestHandlers TestVpNpf TestRegs ≠
      VMEXIT_OUTCOME.crash ∧
    SvHandleVmExit TestCpuidex TestHandlers TestVpNpf TestRegs =
      VMEXIT_OUTCOME.resumed ⟨TestVpNpf, ⟨5, 2, 3, 4⟩,
        EXIT_REASON.EXIT_NOTHING⟩ := by
  constructor <;> decide

/-- C3 (amended): in flat mode a VMEXIT_NPF exit reason is handled by a
debug break only and the dispatcher resumes the guest through the normal
write-back path (with the state otherwise unchanged); only the unhandled
default exit reasons escalate to `KeBugCheck`. -/
theorem SvHandleVmExit_npf_flat_resumes (cpuidex : Nat → Nat → CpuidRegs)
    (h : Handlers) (vp : VIRTUAL_PROCESSOR_DATA)
    (guestRegisters : GUEST_REGISTERS)
    (hmode : vp.cpuMode ≠ CPU_MODE.VmxMode)
    (hnpf : vp.guestVmcb.exitCode = VMEXIT_NPF) :
    SvHandleVmExit cpuidex h vp guestRegisters =
      VMEXIT_OUTCOME.resumed
        ⟨vp, { guestRegisters with rax := vp.guestVmcb.rax },
         EXIT_REASON.EXIT_NOTHING⟩ := by
  unfold SvHandleVmExit
  rw [if_pos hmode]
  simp only [hnpf]
  norm_num [VMEXIT_NPF, VMEXIT_CPUID, VMEXIT_MSR, VMEXIT_VMRUN,
    VMEXIT_VMMCALL]
  have hDT : ∀ s, DispatchTail (some s) = SvVmExitEpilogue s := fun _ => rfl
  rw [hDT]
  simp [SvVmExitEpilogue, hmode]

/-- C3 amended witness: instantiated on the concrete flat NPF state. -/
theorem SvHandleVmExit_npf_flat_resumes_witness :
    SvHandleVmExit TestCpuidex TestHandlers TestVpNpf TestRegs =
      VMEXIT_OUTCOME.resumed
        ⟨TestVpNpf, { TestRegs with rax := TestVpNpf.guestVmcb.rax },
         EXIT_REASON.EXIT_NOTHING⟩ :=
  SvHandleVmExit_npf_flat_resumes TestCpuidex TestHandlers TestVpNpf TestRegs
    (by decide) (by decide)

/-- C9: the vendor signature bytes which `SvHandleCpuid` writes into the
guest EBX/ECX/EDX for the hypervisor vendor-and-max-functions leaf are
exactly the 12 bytes `SvmIsSimpleSvmHypervisorInstalled` compares
against, so with the handler active the installation test returns TRUE;
and the test returns TRUE only for exactly those register contents, so
without the handler (any other register contents) it returns FALSE. -/
theorem SvHandleCpuid_vendor_roundtrip (cpuidex : Nat → Nat → CpuidRegs)
    (st : HState)
    (hleaf : st.regs.rax % 2 ^ 32 = CPUID_HV_VENDOR_AND_MAX_FUNCTIONS) :
    ((SvHandleCpuid cpuidex st).regs.rbx % 2 ^ 32 = HV_VENDOR_EBX ∧
     (SvHandleCpuid cpuidex st).regs.rcx % 2 ^ 32 = HV_VENDOR_ECX ∧
     (SvHandleCpuid cpuidex st).regs.rdx % 2 ^ 32 = HV_VENDOR_EDX) ∧
    SvIsSimpleSvmHypervisorInstalled
        ((SvHandleCpuid cpuidex st).regs.rbx % 2 ^ 32)
        ((SvHandleCpuid cpuidex st).regs.rcx % 2 ^ 32)
        ((SvHandleCpuid cpuidex st).regs.rdx % 2 ^ 32) = true ∧
    ∀ b c d : Nat, b < 2 ^ 32 → c < 2 ^ 32 → d < 2 ^ 32 →
      SvIsSimpleSvmHypervisorInstalled b c d = true →
      b = HV_VENDOR_EBX ∧ c = HV_VENDOR_ECX ∧ d = HV_VENDOR_EDX := by
  have hne1 : CPUID_HV_VENDOR_AND_MAX_FUNCTIONS ≠
      CPUID_PROCESSOR_AND_PROCESSOR_FEATURE_IDENTIFIERS := by decide
  have hregs : SvCpuidResultRegisters cpuidex st =
      { eax := CPUID_HV_MAX, ebx := HV_VENDOR_EBX, ecx := HV_VENDOR_ECX,
        edx := HV_VENDOR_EDX } := by
    unfold SvCpuidResultRegisters
    rw [hleaf, if_neg hne1, if_pos rfl]
  have houtr : (SvHandleCpuid cpuidex st).regs =
      { rax := Sext32to64 (SvCpuidResultRegisters cpuidex st).eax,
        rbx := Sext32to64 (SvCpuidResultRegisters cpuidex st).ebx,
        rcx := Sext32to64 (SvCpuidResultRegisters cpuidex st).ecx,
        rdx := Sext32to64 (SvCpuidResultRegisters cpuidex st).edx } := rfl
  rw [hregs] at houtr
  refine ⟨?_, ?_, ?_⟩
  · rw [houtr]
    refine ⟨?_, ?_, ?_⟩ <;> decide
  · rw [houtr]
    decide
  · intro b c d hb hc hd hins
    have h12 : VendorIdBytes b c d = SvmNestSignatureBytes := by
      have := of_decide_eq_true hins
      exact this
    simp only [VendorIdBytes, SvmNestSignatureBytes, ByteAt,
      List.cons.injEq, and_true, List.cons_ne_nil] at h12
    norm_num at h12
    obtain ⟨e1, e2, e3, e4, e5, e6, e7, e8, e9, e10, e11, e12⟩ := h12
    refine ⟨?_, ?_, ?_⟩ <;>
      simp only [HV_VENDOR_EBX, HV_VENDOR_ECX, HV_VENDOR_EDX] <;> omega

/-- C9 witness: on a concrete state querying leaf 40000000h the handler
emits the signature and the installation test accepts it. -/
theorem SvHandleCpuid_vendor_roundtrip_witness :
    TestStHvLeaf.regs.rax % 2 ^ 32 = CPUID_HV_VENDOR_AND_MAX_FUNCTIONS ∧
    SvIsSimpleSvmHypervisorInstalled
        ((SvHandleCpuid TestCpuidex TestStHvLeaf).regs.rbx % 2 ^ 32)
        ((SvHandleCpuid TestCpuidex TestStHvLeaf).regs.rcx % 2 ^ 32)
        ((SvHandleCpuid TestCpuidex TestStHvLeaf).regs.rdx % 2 ^ 32) = true :=
  ⟨by decide,
   (SvHandleCpuid_vendor_roundtrip TestCpuidex TestStHvLeaf (by decide)).2.1⟩

/-- Sign extension fills the upper 32 bits with ones whenever bit 31 of
the 32-bit value is set. -/
theorem sext32to64_upper_ones (v : Nat) (h : 2 ^ 31 ≤ v % 2 ^ 32) :
    Sext32to64 v / 2 ^ 32 = 0xFFFFFFFF := by
  unfold Sext32to64
  have hlt : v % 2 ^ 32 < 2 ^ 32 := Nat.mod_lt _ (by norm_num)
  have hnot : ¬ v % 2 ^ 32 < 2 ^ 31 := by omega
  rw [if_neg hnot]
  omega

/-- C10: `SvHandleCpuid` stores the four 32-bit CPUID result values into
the guest's 64-bit RAX/RBX/RCX/RDX by signed 32-to-64-bit conversion, so
any result with bit 31 set yields a guest register whose upper 32 bits
are all ones rather than the architectural zero extension. -/
theorem SvHandleCpuid_sign_extends (cpuidex : Nat → Nat → CpuidRegs)
    (st : HState) :
    ((SvHandleCpuid cpuidex st).regs.rax =
        Sext32to64 (SvCpuidResultRegisters cpuidex st).eax ∧
     (SvHandleCpuid cpuidex st).regs.rbx =
        Sext32to64 (SvCpuidResultRegisters cpuidex st).ebx ∧
     (SvHandleCpuid cpuidex st).regs.rcx =
        Sext32to64 (SvCpuidResultRegisters cpuidex st).ecx ∧
     (SvHandleCpuid cpuidex st).regs.rdx =
        Sext32to64 (SvCpuidResultRegisters cpuidex st).edx) ∧
    ((2 ^ 31 ≤ (SvCpuidResultRegisters cpuidex st).eax % 2 ^ 32 →
        (SvHandleCpuid cpuidex st).regs.rax / 2 ^ 32 = 0xFFFFFFFF) ∧
     (2 ^ 31 ≤ (SvCpuidResultRegisters cpuidex st).ebx % 2 ^ 32 →
        (SvHandleCpuid cpuidex st).regs.rbx / 2 ^ 32 = 0xFFFFFFFF) ∧
     (2 ^ 31 ≤ (SvCpuidResultRegisters cpuidex st).ecx % 2 ^ 32 →
        (SvHandleCpuid cpuidex st).regs.rcx / 2 ^ 32 = 0xFFFFFFFF) ∧
     (2 ^ 31 ≤ (SvCpuidResultRegisters cpuidex st).edx % 2 ^ 32 →
        (SvHandleCpuid cpuidex st).regs.rdx / 2 ^ 32 = 0xFFFFFFFF)) := by
  refine ⟨⟨rfl, rfl, rfl, rfl⟩, ?_, ?_, ?_, ?_⟩ <;>
    intro hbit <;> exact sext32to64_upper_ones _ hbit

/-- C10 witness: with a hardware CPUID returning values with bit 31 set
on leaf 0, each stored guest register has all-ones upper half. -/
theorem SvHandleCpuid_sign_extends_witness :
    2 ^ 31 ≤ (SvCpuidResultRegisters TestCpuidexHighBit TestStLeaf0).eax
        % 2 ^ 32 ∧
    (SvHandleCpuid TestCpuidexHighBit TestStLeaf0).regs.rax / 2 ^ 32 =
      0xFFFFFFFF ∧
    (SvHandleCpuid TestCpuidexHighBit TestStLeaf0).regs.rdx / 2 ^ 32 =
      0xFFFFFFFF :=
  ⟨by decide,
   (SvHandleCpuid_sign_extends TestCpuidexHighBit TestStLeaf0).2.1
     (by decide),
   (SvHandleCpuid_sign_extends TestCpuidexHighBit TestStLeaf0).2.2.2.2
     (by decide)⟩

/-- The loop of `SvExecuteOnEachProcessor` with an all-success callback
segment: starting at `i ≤ n` with every later callback succeeding, the
loop runs to `n`, invoking exactly the indices `i, …, n-1` in order. -/
theorem execLoop_trace_success (f : Nat → NTSTATUS) (n : Nat) :
    ∀ (d i : Nat) (l : List Nat), n - i = d → i ≤ n →
      (∀ j, i ≤ j → j < n → NtSuccess (f j) = true) →
      ExecLoop (TraceCallback f) n i l =
        (STATUS_SUCCESS, n, l ++ List.range' i (n - i)) := by
  intro d
  induction d with
  | zero =>
    intro i l hd hin hok
    have hi : i = n := by omega
    subst hi
    rw [ExecLoop]
    simp [hd]
  | succ d ih =>
    intro i l hd hin hok
    have hlt : i < n := by omega
    rw [ExecLoop, dif_pos hlt]
    simp only [TraceCallback]
    rw [hok i le_rfl hlt]
    simp only [if_true]
    rw [ih (i + 1) (l ++ [i]) (by omega) (by omega)
      (fun j hj1 hj2 => hok j (by omega) hj2)]
    have hni : n - i = d + 1 := hd
    rw [hni, List.range'_succ, show n - (i + 1) = d by omega]
    simp

/-- The loop of `SvExecuteOnEachProcessor` with a callback failing first
at `k`: the loop invokes `i, …, k` in order, stops at `k`, and reports
`f k` together with the loop counter `k`. -/
theorem execLoop_trace_fail (f : Nat → NTSTATUS) (n : Nat) :
    ∀ (d i k : Nat) (l : List Nat), k - i = d → i ≤ k → k < n →
      (∀ j, i ≤ j → j < k → NtSuccess (f j) = true) →
      NtSuccess (f k) = false →
      ExecLoop (TraceCallback f) n i l =
        (f k, k, l ++ List.range' i (k - i + 1)) := by
  intro d
  induction d with
  | zero =>
    intro i k l hd hik hkn hok hfail
    have hi : i = k := by omega
    subst hi
    rw [ExecLoop, dif_pos hkn]
    simp only [TraceCallback]
    rw [hfail]
    simp [List.range'_one]
  | succ d ih =>
    intro i k l hd hik hkn hok hfail
    have hlt : i < k := by omega
    rw [ExecLoop, dif_pos (by omega : i < n)]
    simp only [TraceCallback]
    rw [hok i le_rfl hlt]
    simp only [if_true]
    rw [ih (i + 1) k (l ++ [i]) (by omega) (by omega) hkn
      (fun j hj1 hj2 => hok j (by omega) hj2) hfail]
    have hki : k - i + 1 = d + 2 := by omega
    rw [hki, List.range'_succ, show k - (i + 1) = d by omega,
      show d + 2 = d + 1 + 1 from rfl, List.range'_succ, List.range'_succ]
    simp

/-- C8: `SvExecuteOnEachProcessor` invokes the callback once per logical
processor in index order 0..n-1.  If the callback fails first on index
`k`, the function stops (no index greater than `k` is ever invoked),
returns that error status and reports `k` — the number of processors on
which the callback succeeded — as the completed count; if all `n`
invocations succeed it returns success with completed count `n`. -/
theorem SvExecuteOnEachProcessor_spec (n : Nat) (f : Nat → NTSTATUS) :
    (∀ k, k < n → (∀ j, j < k → NtSuccess (f j) = true) →
       NtSuccess (f k) = false →
       SvExecuteOnEachProcessor (TraceCallback f) n [] =
         (f k, k, List.range (k + 1))) ∧
    ((∀ j, j < n → NtSuccess (f j) = true) →
       SvExecuteOnEachProcessor (TraceCallback f) n [] =
         (STATUS_SUCCESS, n, List.range n)) := by
  constructor
  · intro k hk hok hfail
    unfold SvExecuteOnEachProcessor
    rw [execLoop_trace_fail f n k 0 k [] (by omega) (by omega) hk
      (fun j hj1 hj2 => hok j hj2) hfail]
    rw [List.range_eq_range']
    simp
  · intro hok
    unfold SvExecuteOnEachProcessor
    rw [execLoop_trace_success f n n 0 [] (by omega) (by omega)
      (fun j hj1 hj2 => hok j hj2)]
    rw [List.range_eq_range']
    simp

/-- C8 witness: on a three-processor run failing at index 1 the trace is
[0, 1] with completed count 1 and the failing status returned; on a
two-processor all-success run the trace is [0, 1] with success. -/
theorem SvExecuteOnEachProcessor_spec_witness :
    SvExecuteOnEachProcessor (TraceCallback TestStatusFailAt1) 3 [] =
      (TestStatusFailAt1 1, 1, List.range 2) ∧
    SvExecuteOnEachProcessor (TraceCallback (fun _ => STATUS_SUCCESS)) 2 [] =
      (STATUS_SUCCESS, 2, List.range 2) :=
  ⟨(SvExecuteOnEachProcessor_spec 3 TestStatusFailAt1).1 1 (by decide)
     (by decide) (by decide),
   (SvExecuteOnEachProcessor_spec 2 (fun _ => STATUS_SUCCESS)).2
     (by decide)⟩

/-- C1 counterexample: calling `SvVirtualizeProcessor` on a CPU that is
already virtualized returns success, but the per-processor control block
allocated before the installed check is not freed on the success path, so
the observable allocation count grows (by 2: control block and nest-data
block) instead of staying equal. -/
theorem C1_counterexample_alloc_count_grows :
    (SvVirtualizeProcessor TestVirtEnv 0 true TestStateVirt0).1 =
      STATUS_SUCCESS ∧
    TestStateVirt0.pageAllocCount = 0 ∧
    (SvVirtualizeProcessor TestVirtEnv 0 true
        TestStateVirt0).2.pageAllocCount = 2 := by
  refine ⟨?_, rfl, ?_⟩ <;> decide

/-- C1 (amended): calling `SvVirtualizeProcessor` on an already
virtualized CPU (the hypervisor-presence signature matches) returns
success without re-virtualizing — the virtualized set and the
ever-virtualized ghost are unchanged — but it first allocates a fresh
per-processor control block and nest-data block that the success path
never frees, so the page-aligned allocation count observable after the
call is the count before it plus two. -/
theorem SvVirtualizeProcessor_already_virtualized (env : VirtEnv) (cpu : Nat)
    (s : MachineState) (hvp : env.vpAllocOk cpu = true)
    (hnest : env.nestAllocOk cpu = true) (hv : s.virtualized cpu = true) :
    (SvVirtualizeProcessor env cpu true s).1 = STATUS_SUCCESS ∧
    (SvVirtualizeProcessor env cpu true s).2.virtualized = s.virtualized ∧
    (SvVirtualizeProcessor env cpu true s).2.everVirtualized =
      s.everVirtualized ∧
    (SvVirtualizeProcessor env cpu true s).2.pageAllocCount =
      s.pageAllocCount + 2 := by
  unfold SvVirtualizeProcessor
  simp [hvp, hnest, hv]

/-- C1 amended witness: instantiated on the concrete environment and the
state with processor 0 virtualized. -/
theorem SvVirtualizeProcessor_already_virtualized_witness :
    (SvVirtualizeProcessor TestVirtEnv 0 true TestStateVirt0).1 =
      STATUS_SUCCESS ∧
    (SvVirtualizeProcessor TestVirtEnv 0 true TestStateVirt0).2.virtualized =
      TestStateVirt0.virtualized ∧
    (SvVirtualizeProcessor TestVirtEnv 0 true
        TestStateVirt0).2.everVirtualized = TestStateVirt0.everVirtualized ∧
    (SvVirtualizeProcessor TestVirtEnv 0 true
        TestStateVirt0).2.pageAllocCount =
      TestStateVirt0.pageAllocCount + 2 :=
  SvVirtualizeProcessor_already_virtualized TestVirtEnv 0 TestStateVirt0
    (by decide) (by decide) (by decide)

/-- Virtualizing processor `j` from the state where processors `[0, j)`
are virtualized succeeds and moves to the state with `[0, j+1)`
virtualized (two new allocations retained, owned by the hypervisor). -/
theorem virt_step_success (env : VirtEnv) (j : Nat)
    (hvp : env.vpAllocOk j = true) (hnest : env.nestAllocOk j = true) :
    SvVirtualizeProcessor env j true (VirtStateAfter j) =
      (STATUS_SUCCESS, VirtStateAfter (j + 1)) := by
  unfold SvVirtualizeProcessor VirtStateAfter
  simp [hvp, hnest]
  refine ⟨by omega, ?_⟩
  funext p
  by_cases hp : p = j
  · subst hp
    simp [Nat.lt_succ_self]
  · simp only [hp, decide_False, Bool.false_or]
    rw [decide_eq_decide]
    omega

/-- A failing per-processor allocation (either the control block or the
nest-data block) makes `SvVirtualizeProcessor` return the
insufficient-resources status with the machine state unchanged. -/
theorem virt_step_fail (env : VirtEnv) (k : Nat) (s : MachineState)
    (hfail : env.vpAllocOk k = false ∨ env.nestAllocOk k = false) :
    SvVirtualizeProcessor env k true s =
      (STATUS_INSUFFICIENT_RESOURCES, s) := by
  unfold SvVirtualizeProcessor
  rcases hq : env.vpAllocOk k with _ | _
  · simp
  · have hnest : env.nestAllocOk k = false := by
      rcases hfail with hf | hf
      · rw [hq] at hf
        exact absurd hf (by decide)
      · exact hf
    simp [hnest]

/-- Running the virtualize loop from index `j ≤ k` over an all-success
prefix reaches index `k` in the corresponding state. -/
theorem virt_loop_to_k (env : VirtEnv) (k : Nat)
    (hok : ∀ j, j < k → env.vpAllocOk j = true ∧ env.nestAllocOk j = true)
    (hkn : k ≤ env.numProcessors) :
    ∀ (d j : Nat), k - j = d → j ≤ k →
      ExecLoop (fun cpu st => SvVirtualizeProcessor env cpu true st)
          env.numProcessors j (VirtStateAfter j) =
        ExecLoop (fun cpu st => SvVirtualizeProcessor env cpu true st)
          env.numProcessors k (VirtStateAfter k) := by
  intro d
  induction d with
  | zero =>
    intro j hd hj
    have hjk : j = k := by omega
    subst hjk
    rfl
  | succ d ih =>
    intro j hd hj
    have hjk : j < k := by omega
    rw [ExecLoop, dif_pos (by omega : j < env.numProcessors)]
    simp only [virt_step_success env j (hok j hjk).1 (hok j hjk).2]
    norm_num [NtSuccess, STATUS_SUCCESS]
    exact ih (j + 1) (by omega) (by omega)

/-- The virtualize loop stops at the failing processor `k`, reporting the
error and the loop counter `k` with the state reached after `k`
successes. -/
theorem virt_loop_fail_at_k (env : VirtEnv) (k : Nat)
    (hkn : k < env.numProcessors)
    (hfail : env.vpAllocOk k = false ∨ env.nestAllocOk k = false) :
    ExecLoop (fun cpu st => SvVirtualizeProcessor env cpu true st)
        env.numProcessors k (VirtStateAfter k) =
      (STATUS_INSUFFICIENT_RESOURCES, k, VirtStateAfter k) := by
  rw [ExecLoop, dif_pos hkn]
  simp only [virt_step_fail env k _ hfail]
  norm_num [NtSuccess, STATUS_INSUFFICIENT_RESOURCES]

/-- The full virtualize sweep started on the fresh (post-shared-alloc)
state stops at processor `k` with the `[0, k)` prefix virtualized. -/
theorem virt_loop_full (env : VirtEnv) (k : Nat)
    (hok : ∀ j, j < k → env.vpAllocOk j = true ∧ env.nestAllocOk j = true)
    (h0 : 0 < k) (hkN : k < env.numProcessors)
    (hfail : env.vpAllocOk k = false ∨ env.nestAllocOk k = false)
    (s : MachineState) (hs : s = VirtStateAfter 0) :
    SvExecuteOnEachProcessor
        (fun cpu st => SvVirtualizeProcessor env cpu true st)
        env.numProcessors s =
      (STATUS_INSUFFICIENT_RESOURCES, k, VirtStateAfter k) := by
  subst hs
  unfold SvExecuteOnEachProcessor
  rw [virt_loop_to_k env k hok (by omega) k 0 (by omega) (by omega)]
  exact virt_loop_fail_at_k env k hkN hfail

/-- Devirtualizing processor `m < k` from the mid-rollback state clears
its virtualized flag, frees its two blocks, and captures the shared-data
pointer. -/
theorem devirt_step_virt (k m : Nat) (hmk : m < k) (c : Bool) :
    DevirtCallback m (DevirtStateAfter k m, c) =
      (STATUS_SUCCESS, DevirtStateAfter k (m + 1), true) := by
  unfold DevirtCallback SvDevirtualizeProcessor DevirtStateAfter
  simp [hmk]
  refine ⟨by omega, ?_⟩
  funext p
  simp only [← decide_not, ← Bool.decide_and]
  rw [decide_eq_decide]
  omega

/-- Devirtualizing any processor from the fully-rolled-back state is a
no-op returning success. -/
theorem devirt_step_noop (k m : Nat) (c : Bool) :
    DevirtCallback m (DevirtStateAfter k k, c) =
      (STATUS_SUCCESS, DevirtStateAfter k k, c) := by
  unfold DevirtCallback SvDevirtualizeProcessor
  have hv : (DevirtStateAfter k k).virtualized m = false := by
    simp [DevirtStateAfter]
  simp [hv]

/-- Phase 1 of the rollback loop: from index `m < k` it reaches index `k`
with every processor in `[0, k)` devirtualized and the shared pointer
captured. -/
theorem devirt_loop_phase1 (n k : Nat) (hkn : k ≤ n) :
    ∀ (d m : Nat) (c : Bool), k - m = d → m < k →
      ExecLoop DevirtCallback n m (DevirtStateAfter k m, c) =
        ExecLoop DevirtCallback n k (DevirtStateAfter k k, true) := by
  intro d
  induction d with
  | zero =>
    intro m c hd hm
    omega
  | succ d ih =>
    intro m c hd hm
    rw [ExecLoop, dif_pos (by omega : m < n)]
    simp only [devirt_step_virt k m hm c]
    norm_num [NtSuccess, STATUS_SUCCESS]
    by_cases hmk : m + 1 < k
    · exact ih (m + 1) true (by omega) hmk
    · have : m + 1 = k := by omega
      rw [this]

/-- Phase 2 of the rollback loop: from index `m ≤ n` on the
fully-rolled-back state the loop runs to `n` without further effect. -/
theorem devirt_loop_phase2 (n k : Nat) (c : Bool) :
    ∀ (d m : Nat), n - m = d → m ≤ n →
      ExecLoop DevirtCallback n m (DevirtStateAfter k k, c) =
        (STATUS_SUCCESS, n, (DevirtStateAfter k k, c)) := by
  intro d
  induction d with
  | zero =>
    intro m hd hm
    have hmn : m = n := by omega
    subst hmn
    rw [ExecLoop]
    simp
  | succ d ih =>
    intro m hd hm
    rw [ExecLoop, dif_pos (by omega : m < n)]
    simp only [devirt_step_noop k m c]
    norm_num [NtSuccess, STATUS_SUCCESS]
    exact ih (m + 1) (by omega) (by omega)

/-- `SvDevirtualizeAllProcessors` started after `k` processors (with
`0 < k ≤ n`) were virtualized devirtualizes exactly those, frees their
blocks and the shared data, and leaves nothing allocated. -/
theorem devirtAll_rolls_back (n k : Nat) (h0 : 0 < k) (hkn : k ≤ n) :
    SvDevirtualizeAllProcessors n (VirtStateAfter k) =
      { pageAllocCount := 0, contigAllocCount := 0,
        virtualized := fun _ => false,
        everVirtualized := fun p => decide (p < k),
        sharedAllocated := false, msrpmAllocated := false } := by
  unfold SvDevirtualizeAllProcessors SvExecuteOnEachProcessor
  have hstate : VirtStateAfter k = DevirtStateAfter k 0 := by
    refine MachineState.ext ?_ rfl ?_ rfl rfl rfl
    · show 1 + 2 * k = 1 + 2 * (k - 0)
      omega
    · show (fun p => decide (p < k)) = fun p => decide (0 ≤ p ∧ p < k)
      funext p
      rw [decide_eq_decide]
      omega
  rw [hstate]
  rw [devirt_loop_phase1 n k hkn (k - 0) 0 false rfl h0]
  rw [devirt_loop_phase2 n k true (n - k) k rfl hkn]
  refine MachineState.ext ?_ ?_ ?_ ?_ ?_ ?_
  · show 1 + 2 * (k - k) - 1 = 0
    omega
  · show 1 - 1 = 0
    omega
  · show (fun p => decide (k ≤ p ∧ p < k)) = fun _ => false
    funext p
    have hnp : ¬ (k ≤ p ∧ p < k) := by omega
    simp [hnp]
  · rfl
  · rfl
  · rfl

/-- The complete failing `SvVirtualizeAllProcessors` run, as an equality
on the final status and machine state. -/
theorem virtAll_fail_eq (env : VirtEnv) (k : Nat)
    (hsvm : env.svmSupported = true) (hshared : env.sharedAllocOk = true)
    (hmsrpm : env.msrpmAllocOk = true) (h0 : 0 < k)
    (hkN : k < env.numProcessors)
    (hok : ∀ j, j < k → env.vpAllocOk j = true ∧ env.nestAllocOk j = true)
    (hfail : env.vpAllocOk k = false ∨ env.nestAllocOk k = false) :
    SvVirtualizeAllProcessors env FreshMachineState =
      (STATUS_INSUFFICIENT_RESOURCES,
       { pageAllocCount := 0, contigAllocCount := 0,
         virtualized := fun _ => false,
         everVirtualized := fun p => decide (p < k),
         sharedAllocated := false, msrpmAllocated := false }) := by
  unfold SvVirtualizeAllProcessors
  simp only [hsvm, hshared, hmsrpm, Bool.not_true, Bool.false_eq_true,
    if_false]
  rw [virt_loop_full env k hok h0 hkN hfail]
  · have hk0 : ¬ k = 0 := by omega
    norm_num [NtSuccess, STATUS_INSUFFICIENT_RESOURCES, hk0]
    rw [devirtAll_rolls_back env.numProcessors k h0 (by omega)]
  · refine MachineState.ext ?_ ?_ ?_ ?_ rfl rfl
    · show FreshMachineState.pageAllocCount + 1 = 1 + 2 * 0
      simp [FreshMachineState]
    · show FreshMachineState.contigAllocCount + 1 = 1
      simp [FreshMachineState]
    · show FreshMachineState.virtualized = fun p => decide (p < 0)
      funext p
      simp [FreshMachineState]
    · show FreshMachineState.everVirtualized = fun p => decide (p < 0)
      funext p
      simp [FreshMachineState]

/-- C2: for every environment where the capability probe and shared
allocations succeed, the first `k` per-processor virtualizations succeed
(0 < k < N), and virtualization fails on processor `k`, the run of
`SvVirtualizeAllProcessors` from the fresh machine state returns the
error status and rolls back to nothing: exactly the processors `[0, k)`
were virtualized and have been devirtualized (none is virtualized
afterwards), the processors `[k, N)` were never virtualized, the shared
data and the MSR permissions map are freed, and no allocation is
outstanding — the observable postcondition is all-or-nothing. -/
theorem SvVirtualizeAllProcessors_rollback (env : VirtEnv) (k : Nat)
    (hsvm : env.svmSupported = true) (hshared : env.sharedAllocOk = true)
    (hmsrpm : env.msrpmAllocOk = true) (h0 : 0 < k)
    (hkN : k < env.numProcessors)
    (hok : ∀ j, j < k → env.vpAllocOk j = true ∧ env.nestAllocOk j = true)
    (hfail : env.vpAllocOk k = false ∨ env.nestAllocOk k = false) :
    (SvVirtualizeAllProcessors env FreshMachineState).1 =
      STATUS_INSUFFICIENT_RESOURCES ∧
    NtSuccess (SvVirtualizeAllProcessors env FreshMachineState).1 = false ∧
    (∀ j, j < k →
      (SvVirtualizeAllProcessors env
          FreshMachineState).2.everVirtualized j = true) ∧
    (∀ j, k ≤ j →
      (SvVirtualizeAllProcessors env
          FreshMachineState).2.everVirtualized j = false) ∧
    (∀ j, (SvVirtualizeAllProcessors env
          FreshMachineState).2.virtualized j = false) ∧
    (SvVirtualizeAllProcessors env FreshMachineState).2.sharedAllocated =
      false ∧
    (SvVirtualizeAllProcessors env FreshMachineState).2.msrpmAllocated =
      false ∧
    (SvVirtualizeAllProcessors env FreshMachineState).2.pageAllocCount = 0 ∧
    (SvVirtualizeAllProcessors env FreshMachineState).2.contigAllocCount =
      0 := by
  rw [virtAll_fail_eq env k hsvm hshared hmsrpm h0 hkN hok hfail]
  refine ⟨rfl, rfl, ?_, ?_, fun j => rfl, rfl, rfl, rfl, rfl⟩
  · intro j hj
    simp [hj]
  · intro j hj
    simp
    omega

/-- C2 witness: on the three-processor environment whose per-processor
allocation fails at index 2, the run fails, processors 0 and 1 were
virtualized and rolled back, processor 2 was never virtualized, and
nothing remains allocated. -/
theorem SvVirtualizeAllProcessors_rollback_witness :
    (SvVirtualizeAllProcessors TestEnvFailAt2 FreshMachineState).1 =
      STATUS_INSUFFICIENT_RESOURCES ∧
    (SvVirtualizeAllProcessors TestEnvFailAt2
        FreshMachineState).2.everVirtualized 1 = true ∧
    (SvVirtualizeAllProcessors TestEnvFailAt2
        FreshMachineState).2.everVirtualized 2 = false ∧
    (SvVirtualizeAllProcessors TestEnvFailAt2
        FreshMachineState).2.virtualized 1 = false ∧
    (SvVirtualizeAllProcessors TestEnvFailAt2
        FreshMachineState).2.sharedAllocated = false ∧
    (SvVirtualizeAllProcessors TestEnvFailAt2
        FreshMachineState).2.pageAllocCount = 0 :=
  have h := SvVirtualizeAllProcessors_rollback TestEnvFailAt2 2 (by decide)
    (by decide) (by decide) (by decide) (by decide) (by decide)
    (Or.inl (by decide))
  ⟨h.1, h.2.2.1 1 (by decide), h.2.2.2.1 2 (by decide),
   h.2.2.2.2.1 1, h.2.2.2.2.2.1, h.2.2.2.2.2.2.2.1⟩

end SvmNest
